import Mathlib

/-!
Verification model of the TravelMemory backend instrumentation pipeline
(backend `index.js`): the winston request-log middleware, the
OpenTelemetry/Jaeger tracing middleware, the prom-client metrics
middleware (`http_request_duration_seconds` histogram and
`http_request_count` counter), the `/hello` route and server startup.

The middleware chain in `index.js` is, in registration order:
1. logging middleware: logs "Received request for <url>" and calls next();
2. tracing middleware: starts a span named "http_request", sets the
   attributes method, url and status_code (the latter read from
   `res.statusCode` before the handler has run, i.e. Node's default 200),
   and registers `span.end()` on the response's finish event;
3. metrics middleware: starts the histogram timer and registers, on the
   response's finish event, the timer stop/histogram observation and the
   counter increment, both labelled with `req.method`, the raw `req.path`
   and the final `res.statusCode`.
Node fires the listeners of the finish event in registration order, and a
response that never finishes (client disconnect before the response is
written) never fires finish at all; `index.js` registers nothing on the
close or error events and arms no fallback timer.
-/

namespace TravelMemory

/-- An inbound HTTP request as the middleware sees it: `url` is the full
request target, `path` the path component (Express `req.path`). -/
structure Req where
  method : String
  url : String
  path : String
deriving DecidableEq

/-- Scalar span attribute values used by the tracing middleware. -/
inductive AttrVal
  | str (s : String)
  | num (n : Nat)
deriving DecidableEq

/-- Span statuses that telemetry code could record; `index.js` never sets
either of them. -/
inductive SpanStatus
  | error
  | incomplete
deriving DecidableEq

/-- A trace span: its attribute list in write order, the number of times
`end()` was called on it, and an optional recorded status. -/
structure Span where
  name : String
  attrs : List (String × AttrVal)
  endCount : Nat
  status : Option SpanStatus
deriving DecidableEq

/-- `tracer.startSpan(name)`: a fresh span, not yet ended, no status. -/
def startSpan (name : String) : Span :=
  ⟨name, [], 0, none⟩

/-- `span.setAttribute(key, value)`. -/
def setAttribute (s : Span) (k : String) (v : AttrVal) : Span :=
  ⟨s.name, s.attrs ++ [(k, v)], s.endCount, s.status⟩

/-- `span.end()`: one more end call; the status field is untouched
because `index.js` never calls setStatus. -/
def endSpan (s : Span) : Span :=
  ⟨s.name, s.attrs, s.endCount + 1, s.status⟩

/-- The label tuple `{method, route, status}` shared by the histogram and
the counter (lines 61 and 67 of `index.js`). -/
structure Labels where
  method : String
  route : String
  status : Nat
deriving DecidableEq

/-- A prom-client Counter: a mapping from label tuples to the series
value, every series starting at 0. -/
def Counter : Type := Labels → Nat

/-- `counter.inc(labels)`: add 1 to the matching series. -/
def counterInc (c : Counter) (l : Labels) : Counter :=
  fun l' => if l' = l then c l' + 1 else c l'

/-- One histogram series: cumulative (bound, count) buckets in bound
order, the total observation count, and the sum of observed values. -/
structure HistSeries where
  buckets : List (ℚ × Nat)
  count : Nat
  sum : ℚ
deriving DecidableEq

/-- prom-client's default bucket bounds in seconds (the histogram in
`index.js` passes no explicit buckets). -/
def defaultBuckets : List ℚ :=
  [5/1000, 1/100, 25/1000, 5/100, 1/10, 25/100, 5/10, 1, 5/2, 5, 10]

/-- A fresh series: every bucket count, the total count and the sum are 0. -/
def emptySeries : HistSeries :=
  ⟨defaultBuckets.map (fun b => (b, 0)), 0, 0⟩

/-- One observation of value `v`: every bucket whose upper bound is ≥ `v`
(cumulative semantics) gains 1, the total count gains 1 and the sum gains
`v`. -/
def observeSeries (h : HistSeries) (v : ℚ) : HistSeries :=
  ⟨h.buckets.map (fun bc => (bc.1, if v ≤ bc.1 then bc.2 + 1 else bc.2)),
   h.count + 1, h.sum + v⟩

/-- A sequence of observations applied in order. -/
def observeList (h : HistSeries) (vs : List ℚ) : HistSeries :=
  vs.foldl observeSeries h

/-- A labelled histogram: one series per label tuple. -/
def Hist : Type := Labels → HistSeries

/-- Record an observation against the series of one label tuple. -/
def observeHist (hm : Hist) (l : Labels) (v : ℚ) : Hist :=
  fun l' => if l' = l then observeSeries (hm l') v else hm l'

/-- The process-wide instrumentation state: the `http_request_count`
counter, the `http_request_duration_seconds` histogram, and the winston
log lines in append order. -/
structure AppState where
  requestCounter : Counter
  httpRequestDurationSeconds : Hist
  logs : List String

/-- What the downstream handler does: either it completes a response
with a status and a body, or it throws synchronously. -/
inductive HandlerOutcome
  | ok (status : Nat) (body : String)
  | throwsSync
deriving DecidableEq

/-- Node's default `res.statusCode` before any handler writes to it. -/
def defaultStatusCode : Nat := 200

/-- The final response status: a throwing handler is answered by
Express's default error handler with a 500. -/
def dispatchStatus : HandlerOutcome → Nat
  | .ok s _ => s
  | .throwsSync => 500

/-- The response body the client receives from the handler itself
(Express's default error page is not modelled as a handler body). -/
def dispatchBody : HandlerOutcome → Option String
  | .ok _ b => some b
  | .throwsSync => none

/-- How the response lifecycle ends: either the finish event fires (the
response was fully written, including the 500 written for a throwing
handler), or the client disconnects before the response finishes, in
which case Node never fires finish. -/
inductive Completion
  | finish
  | clientDisconnect
deriving DecidableEq

/-- Whether the response finish event fires for this completion. -/
def firesFinish : Completion → Bool
  | .finish => true
  | .clientDisconnect => false

/-- The label tuple the metrics middleware records on finish: method,
raw `req.path`, and the final status code (lines 74-75 of `index.js`). -/
def metricsLabels (req : Req) (statusCode : Nat) : Labels :=
  ⟨req.method, req.path, statusCode⟩

/-- Everything one request leaves behind: the new instrumentation state,
the request's span, and the response the client saw. -/
structure RequestResult where
  state : AppState
  span : Span
  resStatus : Nat
  resBody : Option String

/-- The span as the tracing middleware builds it before calling next():
name "http_request", then the three setAttribute calls of lines 45-47,
with status_code read from the pre-dispatch `res.statusCode`. -/
def setupSpan (req : Req) : Span :=
  setAttribute
    (setAttribute
      (setAttribute (startSpan "http_request") "method" (AttrVal.str req.method))
      "url" (AttrVal.str req.url))
    "status_code" (AttrVal.num defaultStatusCode)

/-- One request through the whole chain of `index.js`: the logging
middleware appends its line, the tracing middleware builds the span, the
handler produces the final status, and then either the finish event runs
the registered finish listeners exactly once (span.end, then the
histogram observation and counter increment with the final labels), or
the client disconnected and no finish listener ever runs. -/
def processRequest (st : AppState) (req : Req) (h : HandlerOutcome)
    (duration : ℚ) (c : Completion) : RequestResult :=
  let logs := st.logs ++ ["Received request for " ++ req.url]
  let span0 := setupSpan req
  let finalStatus := dispatchStatus h
  match c with
  | .finish =>
    ⟨⟨counterInc st.requestCounter (metricsLabels req finalStatus),
      observeHist st.httpRequestDurationSeconds (metricsLabels req finalStatus) duration,
      logs⟩,
     endSpan span0, finalStatus, dispatchBody h⟩
  | .clientDisconnect =>
    ⟨⟨st.requestCounter, st.httpRequestDurationSeconds, logs⟩,
     span0, finalStatus, dispatchBody h⟩

/-- The individual finalization steps a finish listener can perform. -/
inductive FinalizeAction
  | spanEndAct
  | histogramObserve
  | counterIncAct
  | completionLog
deriving DecidableEq

/-- A middleware, reduced to the finalization steps it registers on the
response finish event. -/
structure Middleware where
  finishActions : List FinalizeAction
deriving DecidableEq

/-- The logging middleware (line 36) registers no finish listener. -/
def loggingMiddleware : Middleware := ⟨[]⟩

/-- The tracing middleware (line 43) registers `span.end()` on finish. -/
def tracingMiddleware : Middleware := ⟨[FinalizeAction.spanEndAct]⟩

/-- The metrics middleware (line 71) registers the timer stop (histogram
observation) and then the counter increment on finish. -/
def metricsMiddleware : Middleware :=
  ⟨[FinalizeAction.histogramObserve, FinalizeAction.counterIncAct]⟩

/-- The `app.use` registration order of `index.js`. -/
def appMiddlewares : List Middleware :=
  [loggingMiddleware, tracingMiddleware, metricsMiddleware]

/-- The sequence of finalization steps executed when the finish event
fires: Node runs the listeners in registration order. -/
def finishTrace : List FinalizeAction :=
  (appMiddlewares.map Middleware.finishActions).flatten

/-- One request in a multi-request run. -/
structure RequestEvent where
  req : Req
  handler : HandlerOutcome
  duration : ℚ
  completion : Completion

/-- The label tuple a completed event records against. -/
def eventLabels (e : RequestEvent) : Labels :=
  metricsLabels e.req (dispatchStatus e.handler)

/-- The state transition of one request. -/
def stepRequest (st : AppState) (e : RequestEvent) : AppState :=
  (processRequest st e.req e.handler e.duration e.completion).state

/-- A run of requests, state threaded left to right. Node's event loop
is single-threaded, so interleaved requests serialise their finish
listeners into some total order; the event list is that order. -/
def processAll (st : AppState) (es : List RequestEvent) : AppState :=
  es.foldl stepRequest st

/-- The result of process startup. -/
structure ServerStartup where
  port : Option String
  listening : Bool
deriving DecidableEq

/-- Startup as `index.js` performs it: `const PORT = process.env.PORT`
with no validation, then `app.listen(PORT, ...)`. Node's
`server.listen` treats an absent port as port 0 and binds an
OS-assigned ephemeral port, so the server reaches the listening state
whether or not the environment supplies PORT. -/
def startServer (env : String → Option String) : ServerStartup :=
  ⟨env "PORT", true⟩

/-- The route templates registered on the app: the `/trip` mount, the
`/hello` route and the `/metrics` route. -/
def registeredRouteTemplates : List String :=
  ["/trip", "/hello", "/metrics"]

/-- An initial instrumentation state: all series 0, no logs. -/
def initState : AppState :=
  ⟨fun _ => 0, fun _ => emptySeries, []⟩

/-- The request `GET /hello`. -/
def helloReq : Req := ⟨"GET", "/hello", "/hello"⟩

/-- The `/hello` handler (lines 87-89): `res.send('Hello World!')`,
leaving the default 200 status. -/
def helloHandler : HandlerOutcome := HandlerOutcome.ok 200 "Hello World!"

/-- The label tuple the `GET /hello` request records against. -/
def helloLabels : Labels := ⟨"GET", "/hello", 200⟩

/-- One request changes the counter series of its final labels by 1 when
its finish event fires, and changes nothing otherwise. -/
theorem stepRequest_counter (st : AppState) (e : RequestEvent) (l : Labels) :
    (stepRequest st e).requestCounter l
      = st.requestCounter l
        + (if firesFinish e.completion && decide (eventLabels e = l) then 1 else 0) := by
  obtain ⟨req, h, d, c⟩ := e
  cases c with
  | finish =>
    by_cases hl : metricsLabels req (dispatchStatus h) = l
    · subst hl
      simp [stepRequest, processRequest, counterInc, firesFinish, eventLabels]
    · simp [stepRequest, processRequest, counterInc, firesFinish, eventLabels, hl,
        Ne.symm hl]
  | clientDisconnect =>
    simp [stepRequest, processRequest, firesFinish]

/-- Over a run of requests the counter series of `l` grows by exactly the
number of requests that finished with labels `l`. -/
theorem processAll_counter (st : AppState) (es : List RequestEvent) (l : Labels) :
    (processAll st es).requestCounter l
      = st.requestCounter l
        + es.countP (fun e => firesFinish e.completion && decide (eventLabels e = l)) := by
  induction es generalizing st with
  | nil => simp [processAll]
  | cons e es ih =>
    have h1 : processAll st (e :: es) = processAll (stepRequest st e) es := rfl
    rw [h1, ih, stepRequest_counter, List.countP_cons]
    by_cases hb : (firesFinish e.completion && decide (eventLabels e = l)) = true
    · simp [hb]; omega
    · simp [hb]

/-- The total count after a sequence of observations. -/
theorem observeList_count (h : HistSeries) (vs : List ℚ) :
    (observeList h vs).count = h.count + vs.length := by
  induction vs generalizing h with
  | nil => simp [observeList]
  | cons v vs ih =>
    have h0 : observeList h (v :: vs) = observeList (observeSeries h v) vs := rfl
    rw [h0, ih]
    simp [observeSeries]
    omega

/-- The sum after a sequence of observations. -/
theorem observeList_sum (h : HistSeries) (vs : List ℚ) :
    (observeList h vs).sum = h.sum + vs.sum := by
  induction vs generalizing h with
  | nil => simp [observeList]
  | cons v vs ih =>
    have h0 : observeList h (v :: vs) = observeList (observeSeries h v) vs := rfl
    rw [h0, ih]
    simp [observeSeries]
    ring

/-- After a sequence of observations every bucket count has grown by the
number of observed values that are ≤ its bound: each value lands in the
first bucket whose bound is ≥ the value and in all higher buckets. -/
theorem observeList_buckets (h : HistSeries) (vs : List ℚ) :
    (observeList h vs).buckets
      = h.buckets.map (fun bc => (bc.1, bc.2 + vs.countP (fun v => decide (v ≤ bc.1)))) := by
  induction vs generalizing h with
  | nil => simp [observeList]
  | cons v vs ih =>
    have h0 : observeList h (v :: vs) = observeList (observeSeries h v) vs := rfl
    rw [h0, ih]
    have h1 : (observeSeries h v).buckets
        = h.buckets.map (fun bc => (bc.1, if v ≤ bc.1 then bc.2 + 1 else bc.2)) := rfl
    rw [h1, List.map_map]
    apply List.map_congr_left
    intro bc _
    simp only [Function.comp, List.countP_cons]
    by_cases hv : v ≤ bc.1
    · simp [hv]; omega
    · simp [hv]

/-- Sorted bounds and monotone counts are preserved by observations. -/
theorem observeList_counts_monotone (h : HistSeries) (vs : List ℚ)
    (hb : List.Pairwise (fun p q : ℚ × Nat => p.1 ≤ q.1) h.buckets)
    (hm : List.Pairwise (fun p q : ℚ × Nat => p.2 ≤ q.2) h.buckets) :
    List.Pairwise (fun p q : ℚ × Nat => p.2 ≤ q.2) (observeList h vs).buckets := by
  rw [observeList_buckets, List.pairwise_map]
  refine (hb.and hm).imp ?_
  intro a b hab
  have hcnt : vs.countP (fun v => decide (v ≤ a.1))
      ≤ vs.countP (fun v => decide (v ≤ b.1)) := by
    apply List.countP_mono_left
    intro v _ hva
    simp only [decide_eq_true_eq] at hva ⊢
    exact le_trans hva hab.1
  exact Nat.add_le_add hab.2 hcnt

/-- Claim C1 fails as stated: on a client disconnect before the response
finishes, the response finish event never fires and the finalization
chain (span end, histogram observation, counter increment) runs zero
times, not exactly once. -/
theorem C1_counterexample :
    (processRequest initState helloReq helloHandler 1 Completion.clientDisconnect).span.endCount
      = 0 ∧
    ¬ (processRequest initState helloReq helloHandler 1
        Completion.clientDisconnect).span.endCount = 1 ∧
    (processRequest initState helloReq helloHandler 1
        Completion.clientDisconnect).state.requestCounter helloLabels = 0 :=
  ⟨rfl, by decide, rfl⟩

/-- Claim C1, amended: per request the finalization chain runs at most
once — exactly once when the response finish event fires (normal
completion, or a sync-throwing handler answered by the default 500
handler), and zero times when the client disconnects before the response
finishes: span end count, the counter series of the final labels and the
histogram count of that series each grow by `(firesFinish c).toNat`. -/
theorem C1_finalization_once_iff_finish (st : AppState) (req : Req)
    (h : HandlerOutcome) (d : ℚ) (c : Completion) :
    (processRequest st req h d c).span.endCount = (firesFinish c).toNat ∧
    (processRequest st req h d c).state.requestCounter (metricsLabels req (dispatchStatus h))
      = st.requestCounter (metricsLabels req (dispatchStatus h)) + (firesFinish c).toNat ∧
    ((processRequest st req h d c).state.httpRequestDurationSeconds
        (metricsLabels req (dispatchStatus h))).count
      = (st.httpRequestDurationSeconds (metricsLabels req (dispatchStatus h))).count
        + (firesFinish c).toNat := by
  cases c <;>
    simp [processRequest, firesFinish, counterInc, observeHist, observeSeries,
      endSpan, setupSpan, setAttribute, startSpan, Bool.toNat]

/-- Claim C2 fails as stated: for a request whose path matches no
registered route, the recorded route label is exactly the raw request
path and lies outside the route table — the label set is not drawn from
a fixed enumerated table. -/
theorem C2_counterexample :
    (metricsLabels ⟨"GET", "/no-such-route-123", "/no-such-route-123"⟩ 404).route
      = "/no-such-route-123" ∧
    "/no-such-route-123" ∉ registeredRouteTemplates :=
  ⟨rfl, by decide⟩

/-- Claim C2, amended: the route label recorded by the metrics
middleware is always the raw request path (`req.path`), so the set of
recorded label tuples grows with the set of distinct request paths and
is bounded by no fixed route table. -/
theorem C2_route_label_is_raw_path (req : Req) (status : Nat) :
    (metricsLabels req status).route = req.path := rfl

/-- Claim C3 fails as stated: the finish listeners do not run in the
order histogram observation, counter increment, span end, completion
log. -/
theorem C3_counterexample :
    finishTrace ≠ [FinalizeAction.histogramObserve, FinalizeAction.counterIncAct,
      FinalizeAction.spanEndAct, FinalizeAction.completionLog] := by decide

/-- Claim C3, amended: on the completion event the span is ended first
(the tracing middleware registered its finish listener before the
metrics middleware), then the histogram observation is recorded, then
the counter is incremented; no completion log is emitted at all. -/
theorem C3_finish_order :
    finishTrace = [FinalizeAction.spanEndAct, FinalizeAction.histogramObserve,
      FinalizeAction.counterIncAct] ∧
    FinalizeAction.completionLog ∉ finishTrace := by decide

/-- Claim C4 fails as stated: after a synchronously throwing handler the
span is ended with no recorded status at all — in particular not an
error status. -/
theorem C4_counterexample :
    (processRequest initState helloReq HandlerOutcome.throwsSync 1
        Completion.finish).span.status = none ∧
    (processRequest initState helloReq HandlerOutcome.throwsSync 1
        Completion.finish).span.status ≠ some SpanStatus.error :=
  ⟨rfl, by decide⟩

/-- Claim C4, amended: a synchronously throwing handler yields a 500
response, a counter increment labelled with status 500, and a span ended
exactly once (no leak) — but the span carries no error status and its
status_code attribute keeps the pre-dispatch 200. -/
theorem C4_sync_throw_finalization (st : AppState) (req : Req) (d : ℚ) :
    (processRequest st req HandlerOutcome.throwsSync d Completion.finish).resStatus = 500 ∧
    (processRequest st req HandlerOutcome.throwsSync d
        Completion.finish).state.requestCounter ⟨req.method, req.path, 500⟩
      = st.requestCounter ⟨req.method, req.path, 500⟩ + 1 ∧
    (processRequest st req HandlerOutcome.throwsSync d Completion.finish).span.endCount = 1 ∧
    (processRequest st req HandlerOutcome.throwsSync d Completion.finish).span.status = none ∧
    ("status_code", AttrVal.num 200)
      ∈ (processRequest st req HandlerOutcome.throwsSync d Completion.finish).span.attrs := by
  simp [processRequest, dispatchStatus, metricsLabels, counterInc, endSpan,
    setupSpan, setAttribute, startSpan, defaultStatusCode]

/-- Claim C5 fails as stated: when the completion event never fires the
span is not force-closed — it is never ended, never gets an
"incomplete" status, and no warning is logged. -/
theorem C5_counterexample :
    (processRequest initState helloReq helloHandler 1
        Completion.clientDisconnect).span.status ≠ some SpanStatus.incomplete ∧
    (processRequest initState helloReq helloHandler 1
        Completion.clientDisconnect).span.endCount = 0 ∧
    (processRequest initState helloReq helloHandler 1
        Completion.clientDisconnect).state.logs = ["Received request for /hello"] :=
  ⟨by decide, rfl, rfl⟩

/-- Claim C5, amended: there is no timeout fallback: for every request
whose completion event never fires, the span is never ended, no status
is ever recorded on it, and the only log line produced is the
request-received line — no warning. -/
theorem C5_no_force_close (st : AppState) (req : Req) (h : HandlerOutcome) (d : ℚ) :
    (processRequest st req h d Completion.clientDisconnect).span.endCount = 0 ∧
    (processRequest st req h d Completion.clientDisconnect).span.status = none ∧
    (processRequest st req h d Completion.clientDisconnect).state.logs
      = st.logs ++ ["Received request for " ++ req.url] :=
  ⟨rfl, rfl, rfl⟩

/-- Claim C6 fails as stated: with an environment supplying no PORT the
server still reaches the listening state (Node treats the undefined port
as 0 and binds an OS-assigned port), so startup is not fatal and traffic
is served. -/
theorem C6_counterexample :
    ((fun _ => (none : Option String)) "PORT") = (none : Option String) ∧
    (startServer (fun _ => none)).listening = true :=
  ⟨rfl, rfl⟩

/-- Claim C6, amended: startup never fails on a missing port: for every
environment, including one with no PORT entry, the server starts
listening; the configured port value is passed through unvalidated. -/
theorem C6_listens_without_port (env : String → Option String) :
    (startServer env).listening = true ∧ (startServer env).port = env "PORT" :=
  ⟨rfl, rfl⟩

/-- Claim C7: every counter series is monotonically non-decreasing over
a run, and a run containing N finished requests with a given method,
route and status grows that series by exactly N — the count of matching
finished events — independent of how other requests interleave. -/
theorem C7_counter_monotone_and_exact (st : AppState) (es : List RequestEvent) (l : Labels) :
    st.requestCounter l ≤ (processAll st es).requestCounter l ∧
    (processAll st es).requestCounter l
      = st.requestCounter l
        + es.countP (fun e => firesFinish e.completion && decide (eventLabels e = l)) := by
  refine ⟨?_, processAll_counter st es l⟩
  rw [processAll_counter st es l]
  exact Nat.le_add_right _ _

/-- Claim C8: for a series with sorted bucket bounds and monotone bucket
counts, after any sequence of observations the count equals the number
of observations, the sum equals the sum of observed values, every bucket
has grown by the number of observed values ≤ its bound (each value lands
in the first bucket with bound ≥ it and in all higher buckets), and the
bucket counts remain non-decreasing in bucket index; count and sum grow
together, once per observation. -/
theorem C8_histogram_count_sum_buckets (h : HistSeries) (vs : List ℚ)
    (hb : List.Pairwise (fun p q : ℚ × Nat => p.1 ≤ q.1) h.buckets)
    (hm : List.Pairwise (fun p q : ℚ × Nat => p.2 ≤ q.2) h.buckets) :
    (observeList h vs).count = h.count + vs.length ∧
    (observeList h vs).sum = h.sum + vs.sum ∧
    (observeList h vs).buckets
      = h.buckets.map (fun bc => (bc.1, bc.2 + vs.countP (fun v => decide (v ≤ bc.1)))) ∧
    List.Pairwise (fun p q : ℚ × Nat => p.2 ≤ q.2) (observeList h vs).buckets :=
  ⟨observeList_count h vs, observeList_sum h vs, observeList_buckets h vs,
   observeList_counts_monotone h vs hb hm⟩

/-- Witness for claim C8: the fresh default-bucket series satisfies both
hypotheses, and two observations give a count of two. -/
theorem C8_histogram_count_sum_buckets_witness :
    (observeList emptySeries [1/10, 3]).count = emptySeries.count + 2 :=
  (C8_histogram_count_sum_buckets emptySeries [1/10, 3]
    (by
      simp only [emptySeries, defaultBuckets, List.pairwise_map, List.map_cons,
        List.map_nil]
      norm_num [List.pairwise_cons])
    (by simp [emptySeries, defaultBuckets, List.pairwise_map, List.pairwise_cons])).1

/-- Claim C9: GET /hello responds 200 with body "Hello World!", and on
its finish event exactly the counter series {GET, /hello, 200} grows by
one and exactly one new histogram observation is recorded for that
series; every other series of both metrics is unchanged. -/
theorem C9_hello_scenario (st : AppState) (d : ℚ) :
    (processRequest st helloReq helloHandler d Completion.finish).resStatus = 200 ∧
    (processRequest st helloReq helloHandler d Completion.finish).resBody
      = some "Hello World!" ∧
    (processRequest st helloReq helloHandler d Completion.finish).state.requestCounter
      = (fun l => if l = helloLabels then st.requestCounter l + 1 else st.requestCounter l) ∧
    (processRequest st helloReq helloHandler d Completion.finish).state.httpRequestDurationSeconds
      = (fun l => if l = helloLabels then observeSeries (st.httpRequestDurationSeconds l) d
          else st.httpRequestDurationSeconds l) ∧
    ((processRequest st helloReq helloHandler d
        Completion.finish).state.httpRequestDurationSeconds helloLabels).count
      = (st.httpRequestDurationSeconds helloLabels).count + 1 := by
  refine ⟨rfl, rfl, rfl, rfl, ?_⟩
  simp [processRequest, observeHist, observeSeries, metricsLabels, helloReq,
    helloHandler, helloLabels, dispatchStatus]

/-- Claim C10: the span's attributes are fixed synchronously at setup —
method, url, and status_code equal to the pre-dispatch default 200 — for
every handler outcome and every completion; finalization never updates
them, so the recorded status_code is the pre-dispatch value, not the
final response status. -/
theorem C10_span_attributes_pre_dispatch (st : AppState) (req : Req)
    (h : HandlerOutcome) (d : ℚ) (c : Completion) :
    (processRequest st req h d c).span.attrs
      = [("method", AttrVal.str req.method), ("url", AttrVal.str req.url),
         ("status_code", AttrVal.num 200)] ∧
    defaultStatusCode = 200 := by
  cases c <;> exact ⟨rfl, rfl⟩

end TravelMemory
